import Mathlib

/-!
Shallow embedding of `src/my_agent/agent.py`: a small LangGraph-style
conversational agent.  The Python module defines a mutable `AgentState`
record, four node functions (`call_model`, `update_memory`, `calc_node`,
`tool_node`), a router `should_continue_or_calc`, and wires them into a
graph with a conditional-edge mapping on the `"agent"` node.

External effects are abstracted as explicit parameters: the environment
lookup `os.getenv("OPENAI_API_KEY", "")` becomes an `Option String`
argument, the chat-model invocation becomes an oracle
`String → Except String String` (an `Except.error` models a raised
exception), and Python's `eval` becomes an oracle of the same shape,
with a concrete arithmetic evaluator modelled from the spec supplied for
the literal-expression claims.
-/

namespace Agent

/-- Python per-character lowercasing as used by `str.lower()` on the
inputs of interest (ASCII letters); mirrors `state.user_input.lower()`. -/
def strToLower (s : String) : String :=
  String.mk (s.data.map Char.toLower)

/-- Auxiliary for substring containment: does `needle` occur as a
contiguous run inside the character list? -/
def strContainsAux (needle : List Char) : List Char → Bool
  | [] => needle.isEmpty
  | c :: cs => needle.isPrefixOf (c :: cs) || strContainsAux needle cs

/-- Python's `needle in hay` substring test on strings. -/
def strContains (hay needle : String) : Bool :=
  strContainsAux needle.data hay.data

/-- Does `p` occur at the start of `s`?  Mirrors Python `str.startswith`. -/
def strStartsWith (s p : String) : Bool :=
  p.data.isPrefixOf s.data

/-- Drop leading whitespace characters from a character list. -/
def dropLeadingWs : List Char → List Char
  | [] => []
  | c :: cs => if c.isWhitespace then dropLeadingWs cs else c :: cs

/-- Python's `str.strip()`: remove leading and trailing whitespace. -/
def strStrip (s : String) : String :=
  String.mk ((dropLeadingWs ((dropLeadingWs s.data).reverse)).reverse)

/-- The conversation state of `agent.py` (`class AgentState`):
the latest user message, the most recent model output, the most recent
tool output, and the transcript of `(role, text)` pairs. -/
structure AgentState where
  user_input : String
  last_llm_output : String
  last_tool_output : String
  conversation_history : List (String × String)
deriving Repr, DecidableEq

/-- `AgentState.__init__`: a fresh state from an initial user message. -/
def AgentState.init (user_input : String := "") : AgentState :=
  { user_input := user_input
    last_llm_output := ""
    last_tool_output := ""
    conversation_history := [] }

/-- The prompt string built inside `call_model`:
`f"User: {state.user_input}\nAssistant:"`. -/
def callModelPrompt (state : AgentState) : String :=
  "User: " ++ state.user_input ++ "\nAssistant:"

/-- `call_model` from `agent.py`.  `envKey` models
`os.getenv("OPENAI_API_KEY", "")` (`none` = variable absent); `llm`
models invoking the constructed LangChain client on the prompt, where
`Except.error e` is a raised exception.  The Python body has no
`try/except`: a model-invocation exception propagates to the caller,
which the embedding renders as `Except.error`. -/
def call_model (envKey : Option String) (llm : String → Except String String)
    (state : AgentState) : Except String AgentState :=
  if envKey.getD "" = "" then
    Except.ok { state with last_llm_output := "Error: OPENAI_API_KEY not set." }
  else
    match llm (callModelPrompt state) with
    | Except.ok response => Except.ok { state with last_llm_output := response }
    | Except.error e => Except.error e

/-- `update_memory` from `agent.py`: append the `("user", user_input)`
and `("assistant", last_llm_output)` pairs to the transcript. -/
def update_memory (state : AgentState) : AgentState :=
  { state with conversation_history :=
      state.conversation_history ++
        [("user", state.user_input), ("assistant", state.last_llm_output)] }

/-- `calc_node` from `agent.py`, with Python's `eval` abstracted as an
oracle returning either the `str()` of the computed value or a raised
exception's message.  The `try/except` around `eval` becomes the `match`:
a successful evaluation stores `"Calculator result: ..."`, a failure is
caught and stored as `"Calculator error: ..."`. -/
def calc_node (pyEval : String → Except String String)
    (state : AgentState) : AgentState :=
  match pyEval (strStrip state.user_input) with
  | Except.ok result =>
      { state with last_tool_output := "Calculator result: " ++ result }
  | Except.error e =>
      { state with last_tool_output := "Calculator error: " ++ e }

/-- `tool_node` from `agent.py`: a stub that stores a constant string. -/
def tool_node (state : AgentState) : AgentState :=
  { state with last_tool_output := "Pretend we used a tool here!" }

/-- `should_continue_or_calc` from `agent.py`: route on substring tests
over the lowercased user input. -/
def should_continue_or_calc (state : AgentState) : String :=
  if strContains (strToLower state.user_input) "calc" ||
     strContains (strToLower state.user_input) "calculate" then
    "calc"
  else if strContains (strToLower state.user_input) "quit" ||
          strContains (strToLower state.user_input) "end" then
    "end"
  else
    "continue"

/-- Modelled from the spec: tokens of the "restricted
arithmetic-expression ... fixed grammar (numbers, `+ - * /`,
parentheses)" that the spec gives for the expressions `eval` receives on
the calculator path.  `eval` itself is the Python builtin, not code of
this repository. -/
inductive Tok where
  | num : Int → Tok
  | plus : Tok
  | minus : Tok
  | star : Tok
  | slash : Tok
  | lparen : Tok
  | rparen : Tok
deriving Repr, DecidableEq

/-- Numeric value of a decimal digit character. -/
def digitVal (c : Char) : Nat :=
  c.toNat - 48

/-- Consume a run of decimal digits, accumulating their value. -/
def lexDigits : List Char → Nat → Nat × List Char
  | [], acc => (acc, [])
  | c :: cs, acc =>
      if c.isDigit then lexDigits cs (acc * 10 + digitVal c) else (acc, c :: cs)

/-- Fuel-indexed tokenizer for the arithmetic grammar. -/
def lexRun : Nat → List Char → Except String (List Tok)
  | 0, _ => Except.error "lexer fuel exhausted"
  | _ + 1, [] => Except.ok []
  | fuel + 1, c :: cs =>
      if c.isWhitespace then lexRun fuel cs
      else if c = '+' then (lexRun fuel cs).map (fun ts => Tok.plus :: ts)
      else if c = '-' then (lexRun fuel cs).map (fun ts => Tok.minus :: ts)
      else if c = '*' then (lexRun fuel cs).map (fun ts => Tok.star :: ts)
      else if c = '/' then (lexRun fuel cs).map (fun ts => Tok.slash :: ts)
      else if c = '(' then (lexRun fuel cs).map (fun ts => Tok.lparen :: ts)
      else if c = ')' then (lexRun fuel cs).map (fun ts => Tok.rparen :: ts)
      else if c.isDigit then
        match lexDigits (c :: cs) 0 with
        | (n, rest) => (lexRun fuel rest).map (fun ts => Tok.num (Int.ofNat n) :: ts)
      else Except.error ("invalid character in expression: " ++ String.mk [c])

/-- Tokenize a character list with ample fuel. -/
def lexTokens (cs : List Char) : Except String (List Tok) :=
  lexRun (cs.length + 1) cs

mutual

/-- Fuel-indexed expression production: a term followed by `+`/`-` chains. -/
def parseExpr : Nat → List Tok → Except String (Int × List Tok)
  | 0, _ => Except.error "expression fuel exhausted"
  | fuel + 1, ts =>
      match parseTerm fuel ts with
      | Except.error e => Except.error e
      | Except.ok (v, rest) => parseExprLoop fuel v rest

/-- Left-associative folding of `+` and `-` over terms. -/
def parseExprLoop : Nat → Int → List Tok → Except String (Int × List Tok)
  | 0, _, _ => Except.error "expression fuel exhausted"
  | fuel + 1, acc, Tok.plus :: ts =>
      match parseTerm fuel ts with
      | Except.error e => Except.error e
      | Except.ok (v, rest) => parseExprLoop fuel (acc + v) rest
  | fuel + 1, acc, Tok.minus :: ts =>
      match parseTerm fuel ts with
      | Except.error e => Except.error e
      | Except.ok (v, rest) => parseExprLoop fuel (acc - v) rest
  | _ + 1, acc, ts => Except.ok (acc, ts)

/-- Fuel-indexed term production: a factor followed by `*`/`/` chains. -/
def parseTerm : Nat → List Tok → Except String (Int × List Tok)
  | 0, _ => Except.error "expression fuel exhausted"
  | fuel + 1, ts =>
      match parseFactor fuel ts with
      | Except.error e => Except.error e
      | Except.ok (v, rest) => parseTermLoop fuel v rest

/-- Left-associative folding of `*` and `/` over factors. -/
def parseTermLoop : Nat → Int → List Tok → Except String (Int × List Tok)
  | 0, _, _ => Except.error "expression fuel exhausted"
  | fuel + 1, acc, Tok.star :: ts =>
      match parseFactor fuel ts with
      | Except.error e => Except.error e
      | Except.ok (v, rest) => parseTermLoop fuel (acc * v) rest
  | fuel + 1, acc, Tok.slash :: ts =>
      match parseFactor fuel ts with
      | Except.error e => Except.error e
      | Except.ok (v, rest) =>
          if v = 0 then Except.error "division by zero"
          else parseTermLoop fuel (acc / v) rest
  | _ + 1, acc, ts => Except.ok (acc, ts)

/-- Factor production: a number, a parenthesised expression, or a
unary minus. -/
def parseFactor : Nat → List Tok → Except String (Int × List Tok)
  | 0, _ => Except.error "expression fuel exhausted"
  | _ + 1, Tok.num n :: ts => Except.ok (n, ts)
  | fuel + 1, Tok.minus :: ts =>
      match parseFactor fuel ts with
      | Except.error e => Except.error e
      | Except.ok (v, rest) => Except.ok (-v, rest)
  | fuel + 1, Tok.lparen :: ts =>
      match parseExpr fuel ts with
      | Except.error e => Except.error e
      | Except.ok (v, Tok.rparen :: rest) => Except.ok (v, rest)
      | Except.ok (_, _) => Except.error "expected closing parenthesis"
  | _ + 1, _ => Except.error "unexpected end of expression or invalid token"

end

/-- Modelled from the spec: the Python builtin `eval` applied to
calculator input, restricted per the spec to "a literal arithmetic
expression" over the "fixed grammar (numbers, `+ - * /`, parentheses)".
Returns the `str()` of the computed value, or the exception message of
a failed evaluation (`SyntaxError`, `ZeroDivisionError`, ...). -/
def pyEvalArith (s : String) : Except String String :=
  match lexTokens s.data with
  | Except.error e => Except.error e
  | Except.ok ts =>
      match parseExpr (2 * ts.length + 2) ts with
      | Except.error e => Except.error e
      | Except.ok (v, []) => Except.ok (toString v)
      | Except.ok (_, _ :: _) => Except.error "unexpected trailing tokens"

/-- LangGraph's `END` sentinel node name. -/
def ENDNode : String := "__end__"

/-- The conditional-edge mapping registered on the `"agent"` node by
`workflow.add_conditional_edges`: router label ↦ destination node. -/
def conditionalEdges : List (String × String) :=
  [("calc", "calc"), ("continue", "update_memory"), ("end", ENDNode)]

/-- Two strings are case variants: the same characters up to
upper/lower case, compared character-wise. -/
def caseVariant (s t : String) : Prop :=
  s.data.map Char.toLower = t.data.map Char.toLower

end Agent

namespace Agent

/-- C1: for every input string whose lowercased form contains "calc" or
"calculate", the router `should_continue_or_calc` returns "calc",
selecting the calculator path. -/
theorem router_calc_keyword (s : AgentState)
    (h : strContains (strToLower s.user_input) "calc" = true ∨
         strContains (strToLower s.user_input) "calculate" = true) :
    should_continue_or_calc s = "calc" := by
  unfold should_continue_or_calc
  rcases h with h | h <;> simp [h]

/-- C1 witness: the router sends the concrete input "CALC 2+2" to the
calculator path. -/
theorem router_calc_keyword_witness :
    should_continue_or_calc (AgentState.init "CALC 2+2") = "calc" :=
  router_calc_keyword (AgentState.init "CALC 2+2") (Or.inl (by decide))

/-- C2 counterexample: the input "calculate the end" contains "end" in
lowercased form, yet the router returns "calc", not "end" — the "calc"
branch is tested first and shadows the "end" branch. -/
theorem router_end_claim_cex :
    strContains (strToLower "calculate the end") "end" = true ∧
    should_continue_or_calc (AgentState.init "calculate the end") = "calc" ∧
    should_continue_or_calc (AgentState.init "calculate the end") ≠ "end" := by
  refine ⟨by decide, by decide, by decide⟩

/-- C2 amended: if the lowercased input contains "quit" or "end" and
contains neither "calc" nor "calculate", the router returns "end"; if it
contains none of the four keywords, the router returns "continue". -/
theorem router_end_continue_amended (s : AgentState) :
    ((strContains (strToLower s.user_input) "quit" = true ∨
      strContains (strToLower s.user_input) "end" = true) →
     strContains (strToLower s.user_input) "calc" = false →
     strContains (strToLower s.user_input) "calculate" = false →
     should_continue_or_calc s = "end") ∧
    (strContains (strToLower s.user_input) "calc" = false →
     strContains (strToLower s.user_input) "calculate" = false →
     strContains (strToLower s.user_input) "quit" = false →
     strContains (strToLower s.user_input) "end" = false →
     should_continue_or_calc s = "continue") := by
  constructor
  · intro h hc hca
    unfold should_continue_or_calc
    rcases h with h | h <;> simp [h, hc, hca]
  · intro hc hca hq he
    unfold should_continue_or_calc
    simp [hc, hca, hq, he]

/-- C2 amended witness: "please end now" routes to "end" and "hello"
routes to "continue". -/
theorem router_end_continue_amended_witness :
    should_continue_or_calc (AgentState.init "please end now") = "end" ∧
    should_continue_or_calc (AgentState.init "hello") = "continue" :=
  ⟨(router_end_continue_amended (AgentState.init "please end now")).1
      (Or.inr (by decide)) (by decide) (by decide),
   (router_end_continue_amended (AgentState.init "hello")).2
      (by decide) (by decide) (by decide) (by decide)⟩

/-- C3 counterexample: with the credential present and a model
invocation that raises, `call_model` propagates the exception (the body
has no `try/except`), contradicting the claim that it never does. -/
theorem call_model_propagates_cex :
    call_model (some "sk-test") (fun _ => Except.error "boom")
      (AgentState.init "hi") = Except.error "boom" := rfl

/-- C3 amended: an exception raised while evaluating an expression in
`calc_node` is caught and converted into a string prefixed with
"Calculator error"; but `call_model` handles only the missing-credential
case and propagates any exception raised by the model invocation. -/
theorem exception_handling_amended :
    (∀ (pyEval : String → Except String String) (s : AgentState) (e : String),
       pyEval (strStrip s.user_input) = Except.error e →
       (calc_node pyEval s).last_tool_output = "Calculator error: " ++ e) ∧
    (∀ (llm : String → Except String String) (k : String) (s : AgentState)
       (e : String), k ≠ "" → llm (callModelPrompt s) = Except.error e →
       call_model (some k) llm s = Except.error e) := by
  constructor
  · intro pyEval s e h
    unfold calc_node
    simp [h]
  · intro llm k s e hk h
    unfold call_model
    simp [hk, h]

/-- C3 amended witness: division by zero is caught by `calc_node`, and a
raising model invocation escapes `call_model` unchanged. -/
theorem exception_handling_amended_witness :
    (calc_node pyEvalArith (AgentState.init "2/0")).last_tool_output =
      "Calculator error: division by zero" ∧
    call_model (some "sk-test") (fun _ => Except.error "timeout")
      (AgentState.init "hi") = Except.error "timeout" :=
  ⟨exception_handling_amended.1 pyEvalArith (AgentState.init "2/0")
      "division by zero" rfl,
   exception_handling_amended.2 (fun _ => Except.error "timeout") "sk-test"
      (AgentState.init "hi") "timeout" (by decide) rfl⟩

/-- C4: running `calc_node` on a state whose `user_input` is the literal
expression "2+2" sets `last_tool_output` to exactly
"Calculator result: 4". -/
theorem calc_node_two_plus_two (s : AgentState) (h : s.user_input = "2+2") :
    (calc_node pyEvalArith s).last_tool_output = "Calculator result: 4" := by
  unfold calc_node
  rw [h]
  rfl

/-- C4 witness: the fresh state with input "2+2". -/
theorem calc_node_two_plus_two_witness :
    (calc_node pyEvalArith (AgentState.init "2+2")).last_tool_output =
      "Calculator result: 4" :=
  calc_node_two_plus_two (AgentState.init "2+2") rfl

/-- C5: running `calc_node` on a state whose `user_input` is the
malformed expression "2+" sets `last_tool_output` to a string beginning
with "Calculator error:" (and, `calc_node` being a total function in
the embedding, returns normally rather than raising). -/
theorem calc_node_malformed (s : AgentState) (h : s.user_input = "2+") :
    strStartsWith (calc_node pyEvalArith s).last_tool_output
      "Calculator error:" = true := by
  unfold calc_node
  rw [h]
  rfl

/-- C5 witness: the fresh state with input "2+". -/
theorem calc_node_malformed_witness :
    strStartsWith (calc_node pyEvalArith (AgentState.init "2+")).last_tool_output
      "Calculator error:" = true :=
  calc_node_malformed (AgentState.init "2+") rfl

/-- C6: `update_memory` appends exactly the pair `("user", user_input)`
then `("assistant", last_llm_output)` to the transcript, so the
transcript grows by exactly two entries and order is preserved. -/
theorem update_memory_appends_pair (s : AgentState) :
    (update_memory s).conversation_history =
      s.conversation_history ++
        [("user", s.user_input), ("assistant", s.last_llm_output)] ∧
    (update_memory s).conversation_history.length =
      s.conversation_history.length + 2 := by
  refine ⟨rfl, ?_⟩
  simp [update_memory]

/-- C7: with the credential absent or empty, `call_model`
short-circuits to the fixed error string, consults no model oracle, and
leaves every other field of the state unchanged. -/
theorem call_model_missing_key (envKey : Option String)
    (llm : String → Except String String) (s : AgentState)
    (h : envKey.getD "" = "") :
    call_model envKey llm s =
      Except.ok { s with last_llm_output := "Error: OPENAI_API_KEY not set." } := by
  unfold call_model
  simp [h]

/-- C7 witness: an absent variable with an arbitrary model oracle. -/
theorem call_model_missing_key_witness :
    call_model none (fun _ => Except.ok "resp") (AgentState.init "hi") =
      Except.ok { AgentState.init "hi" with
                    last_llm_output := "Error: OPENAI_API_KEY not set." } :=
  call_model_missing_key none (fun _ => Except.ok "resp")
    (AgentState.init "hi") rfl

/-- C8: every node function preserves the existing transcript: the input
state's `conversation_history` is a prefix of the output state's. -/
theorem nodes_preserve_history :
    (∀ (envKey : Option String) (llm : String → Except String String)
       (s t : AgentState), call_model envKey llm s = Except.ok t →
       s.conversation_history <+: t.conversation_history) ∧
    (∀ s : AgentState,
       s.conversation_history <+: (update_memory s).conversation_history) ∧
    (∀ (pyEval : String → Except String String) (s : AgentState),
       s.conversation_history <+: (calc_node pyEval s).conversation_history) ∧
    (∀ s : AgentState,
       s.conversation_history <+: (tool_node s).conversation_history) := by
  refine ⟨?_, ?_, ?_, ?_⟩
  · intro envKey llm s t h
    unfold call_model at h
    by_cases hk : envKey.getD "" = ""
    · rw [if_pos hk] at h
      cases h
      exact List.prefix_rfl
    · rw [if_neg hk] at h
      rcases hr : llm (callModelPrompt s) with e | r <;> rw [hr] at h
      · simp at h
      · injection h with h2
        rw [← h2]
  · intro s
    exact List.prefix_append _ _
  · intro pyEval s
    unfold calc_node
    rcases hr : pyEval (strStrip s.user_input) with e | r <;>
      exact List.prefix_rfl
  · intro s
    exact List.prefix_rfl

/-- C8 witness: `call_model` with the credential absent keeps the
transcript of a concrete state. -/
theorem nodes_preserve_history_witness :
    (AgentState.init "hi").conversation_history <+:
      { AgentState.init "hi" with
          last_llm_output := "Error: OPENAI_API_KEY not set." }.conversation_history :=
  nodes_preserve_history.1 none (fun _ => Except.ok "r")
    (AgentState.init "hi") _ rfl

/-- C9: the routing decision is invariant under letter case of the
input: case-variant inputs route identically. -/
theorem router_case_invariant (s t : AgentState)
    (h : caseVariant s.user_input t.user_input) :
    should_continue_or_calc s = should_continue_or_calc t := by
  have hl : strToLower s.user_input = strToLower t.user_input :=
    congrArg String.mk h
  unfold should_continue_or_calc
  rw [hl]

/-- C9 witness: "CALC 2+2" and "calc 2+2" route identically. -/
theorem router_case_invariant_witness :
    should_continue_or_calc (AgentState.init "CALC 2+2") =
      should_continue_or_calc (AgentState.init "calc 2+2") :=
  router_case_invariant (AgentState.init "CALC 2+2")
    (AgentState.init "calc 2+2") rfl

/-- C10: the router returns exactly one of "calc", "end", "continue",
and these are precisely the keys of the conditional-edge mapping
registered on the "agent" node. -/
theorem router_labels_total (s : AgentState) :
    (should_continue_or_calc s = "calc" ∨ should_continue_or_calc s = "end" ∨
     should_continue_or_calc s = "continue") ∧
    should_continue_or_calc s ∈ conditionalEdges.map Prod.fst ∧
    conditionalEdges.map Prod.fst = ["calc", "continue", "end"] := by
  unfold should_continue_or_calc
  split
  · exact ⟨Or.inl rfl, by decide, by decide⟩
  · split
    · exact ⟨Or.inr (Or.inl rfl), by decide, by decide⟩
    · exact ⟨Or.inr (Or.inr rfl), by decide, by decide⟩

end Agent
